import Mathlib

/-!
A shallow embedding of the axis-aligned box physics module (`Space.py`).

Python floats are modelled as exact rationals (`ℚ`); `math.fabs` and
`math.copysign` are modelled explicitly.  Entities and concretes are
identified by their index in the owning space's lists, which models Python
object identity for collision-event parties.  Mutation is modelled by
explicit state passing: each phase of the per-tick pipeline is a function
from `Space` to `Space`.
-/

namespace AABB

/-- Model of Python's `math.fabs`. -/
def fabs (q : ℚ) : ℚ := if q < 0 then -q else q

/-- Model of Python's `math.copysign m s`: the magnitude of `m` with the sign
of `s`.  For exact rationals a zero `s` carries a positive sign, matching
`math.copysign(m, 0.0)` in Python. -/
def copysign (m s : ℚ) : ℚ := if s < 0 then -(fabs m) else fabs m

/-- Model of Python's `enumerate` starting at index `n`. -/
def enum_from {α : Type} (n : ℕ) : List α → List (ℕ × α)
  | [] => []
  | a :: l => (n, a) :: enum_from (n + 1) l

/-- Model of Python's `enumerate`. -/
def enumerate {α : Type} (l : List α) : List (ℕ × α) := enum_from 0 l

/-- Model of Python's `range(start, start + count)` as an explicit list. -/
def range_from (start : ℕ) : ℕ → List ℕ
  | 0 => []
  | n + 1 => start :: range_from (start + 1) n

/-- The `Axis` enum from `Space.py`. -/
inductive Axis where
  | X
  | Y
deriving DecidableEq

/-- A party of a collision event: a reference to an entity or a concrete,
modelled as an index into the owning space's `entities` resp. `concretes`
list (Python holds object references; the index models identity). -/
inductive Party where
  | ent (i : ℕ)
  | conc (i : ℕ)
deriving DecidableEq

/-- Model of `isinstance(p, Concrete)` for a collision party. -/
def Party.isConc : Party → Bool
  | .conc _ => true
  | .ent _ => false

/-- Model of `isinstance(p, Entity)` for a collision party. -/
def Party.isEnt : Party → Bool
  | .ent _ => true
  | .conc _ => false

/-- The `CollisionEvent` class: two parties, the overlap rectangle and the
axis on which the collision took place. -/
structure CollisionEvent where
  party_one : Party
  party_two : Party
  collision_rect : ℚ × ℚ
  axis : Axis
deriving DecidableEq

/-- Embeds `CollisionEvent.has_concrete`. -/
def CollisionEvent.has_concrete (ev : CollisionEvent) : Bool :=
  ev.party_one.isConc || ev.party_two.isConc

/-- Embeds `CollisionEvent.has_entity`. -/
def CollisionEvent.has_entity (ev : CollisionEvent) : Bool :=
  ev.party_one.isEnt || ev.party_two.isEnt

/-- Embeds `CollisionEvent.get_concrete`: the first concrete party, trying
`party_one` then `party_two`; the source raises `RuntimeError` when neither
party is a `Concrete`, modelled here by `none`. -/
def CollisionEvent.get_concrete (ev : CollisionEvent) : Option Party :=
  if ev.party_one.isConc then some ev.party_one
  else if ev.party_two.isConc then some ev.party_two
  else none

/-- Embeds `CollisionEvent.get_entity`: the first entity party, trying `party_one`
then `party_two`; the source raises `RuntimeError` when neither party is an
`Entity`, modelled here by `none`. -/
def CollisionEvent.get_entity (ev : CollisionEvent) : Option Party :=
  if ev.party_one.isEnt then some ev.party_one
  else if ev.party_two.isEnt then some ev.party_two
  else none

/-- Embeds `get_collision_rect` from `Space.py`: the per-axis overlap of two boxes,
with the fixed `0.01` epsilon added to both components. -/
def get_collision_rect (pos1 hitbox1 pos2 hitbox2 : ℚ × ℚ) : ℚ × ℚ :=
  let hitbox1_width := hitbox1.1
  let hitbox1_height := hitbox1.2
  let hitbox2_width := hitbox2.1
  let hitbox2_height := hitbox2.2
  let minimum_dist_x := hitbox1_width + hitbox2_width
  let minimum_dist_y := hitbox1_height + hitbox2_height
  let actual_dist_x := (hitbox1_width + hitbox2_width) / 2 +
    fabs ((1/2 * hitbox1_width + pos1.1) - (1/2 * hitbox2_width + pos2.1))
  let actual_dist_y := (hitbox1_height + hitbox2_height) / 2 +
    fabs ((1/2 * hitbox1_height + pos1.2) - (1/2 * hitbox2_height + pos2.2))
  let x_overlap := minimum_dist_x - actual_dist_x
  let y_overlap := minimum_dist_y - actual_dist_y
  (x_overlap + 1/100, y_overlap + 1/100)

/-- Embeds `do_hitboxes_collide` from `Space.py`, with the source's literal
comparison order. -/
def do_hitboxes_collide (pos1 hitbox1 pos2 hitbox2 : ℚ × ℚ) : Bool :=
  decide (pos1.1 < pos2.1 + hitbox2.1) &&
  decide (pos1.1 + hitbox1.1 > pos2.1) &&
  decide (pos1.2 < pos2.2 + hitbox2.2) &&
  decide (hitbox1.2 + pos1.2 > pos2.2)

/-- The `Entity` class: a `PhysObj` with mass, accumulated force, the
friction/drag/bouncy coefficients and the per-tick flags. -/
structure Entity where
  x : ℚ
  y : ℚ
  vel_x : ℚ
  vel_y : ℚ
  hitbox : ℚ × ℚ
  mass : ℚ
  pre_collided : Bool
  force_x : ℚ
  force_y : ℚ
  friction : ℚ
  drag_coefficient : ℚ
  bouncy : ℚ
  hit_down : Bool
  hit_left : Bool
  hit_right : Bool
  hit_up : Bool
deriving DecidableEq

/-- Embeds `Entity.__init__(pos, hitbox, mass)` with the class's default
coefficients and flags. -/
def mkEntity (pos hitbox : ℚ × ℚ) (mass : ℚ) : Entity :=
  { x := pos.1, y := pos.2, vel_x := 0, vel_y := 0, hitbox := hitbox,
    mass := mass, pre_collided := false, force_x := 0, force_y := 0,
    friction := 1/2, drag_coefficient := 1/2, bouncy := 0,
    hit_down := false, hit_left := false, hit_right := false,
    hit_up := false }

/-- Embeds `Entity.apply_force`. -/
def Entity.apply_force (e : Entity) (fx fy : ℚ) : Entity :=
  { e with force_x := e.force_x + fx, force_y := e.force_y + fy }

/-- Embeds `PhysObj.get_pos` for an entity. -/
def Entity.get_pos (e : Entity) : ℚ × ℚ := (e.x, e.y)

/-- The `Concrete` class: a `PhysObj` with a friction coefficient. -/
structure Concrete where
  x : ℚ
  y : ℚ
  vel_x : ℚ
  vel_y : ℚ
  hitbox : ℚ × ℚ
  friction : ℚ
deriving DecidableEq

/-- Embeds `Concrete.__init__(pos, hitbox)` with the class's default friction. -/
def mkConcrete (pos hitbox : ℚ × ℚ) : Concrete :=
  { x := pos.1, y := pos.2, vel_x := 0, vel_y := 0, hitbox := hitbox,
    friction := 1/10 }

/-- Embeds `PhysObj.get_pos` for a concrete. -/
def Concrete.get_pos (c : Concrete) : ℚ × ℚ := (c.x, c.y)

/-- Embeds `PhysObj.is_collided_with` between two entities. -/
def Entity.is_collided_with (e other : Entity) : Bool :=
  do_hitboxes_collide e.get_pos e.hitbox other.get_pos other.hitbox

/-- Embeds `PhysObj.is_collided_with` between an entity and a concrete. -/
def Entity.is_collided_with_conc (e : Entity) (c : Concrete) : Bool :=
  do_hitboxes_collide e.get_pos e.hitbox c.get_pos c.hitbox

/-- The `Space` class: object lists, the per-tick event list, and the
global constants. -/
structure Space where
  entities : List Entity
  concretes : List Concrete
  events : List CollisionEvent
  axis_speed_limit : ℚ
  collision_coefficient : ℚ
  gravity : ℚ
  air_resistance : ℚ
deriving DecidableEq

/-- Embeds `Space.__init__`: empty object lists and the default constants. -/
def mkSpace : Space :=
  { entities := [], concretes := [], events := [],
    axis_speed_limit := 100, collision_coefficient := 3,
    gravity := 3/10, air_resistance := 3/10 }

/-- The body of `Space.resolve_forces` for one entity: reset the hit flags,
integrate force, gravity (Y only) and drag in the source's literal order,
then clamp both velocities to the axis speed limit and zero the force. -/
def resolve_forces_entity (s : Space) (e0 : Entity) : Entity :=
  let e := { e0 with hit_down := false, hit_left := false,
                     hit_right := false, hit_up := false }
  let vel_x1 := e.vel_x + e.force_x / e.mass
  let air_x := e.drag_coefficient * s.air_resistance * vel_x1 / e.mass
  let vel_x2 := if fabs vel_x1 < fabs air_x then 0 else vel_x1 - air_x
  let vel_y1 := e.vel_y + e.force_y / e.mass
  let vel_y2 := vel_y1 - s.gravity
  let air_y := e.drag_coefficient * s.air_resistance * vel_y2 / e.mass
  let vel_y3 := if fabs vel_y2 < fabs air_y then 0 else vel_y2 - air_y
  let vel_x3 := if vel_x2 > s.axis_speed_limit then s.axis_speed_limit
    else if vel_x2 < -s.axis_speed_limit then -s.axis_speed_limit
    else vel_x2
  let vel_y4 := if vel_y3 > s.axis_speed_limit then s.axis_speed_limit
    else if vel_y3 < -s.axis_speed_limit then -s.axis_speed_limit
    else vel_y3
  { e with vel_x := vel_x3, vel_y := vel_y4, force_x := 0, force_y := 0 }

/-- Embeds `Space.resolve_forces`. -/
def Space.resolve_forces (s : Space) : Space :=
  { s with entities := s.entities.map (resolve_forces_entity s) }

/-- Embeds `Space.check_for_concrete_colliding`. -/
def check_for_concrete_colliding (s : Space) (e : Entity) : Bool :=
  s.concretes.any fun c => e.is_collided_with_conc c

/-- The body of `Space.mark_precollisions` for one entity. -/
def mark_precollisions_entity (s : Space) (e : Entity) : Entity :=
  if check_for_concrete_colliding s e then
    { e with pre_collided := true, y := e.y - 1 }
  else
    { e with pre_collided := false }

/-- Embeds `Space.mark_precollisions`. -/
def Space.mark_precollisions (s : Space) : Space :=
  { s with entities := s.entities.map (mark_precollisions_entity s) }

/-- Replace the element at index `i` of a list by its image under `f`
(identity when `i` is out of range); used to model in-place mutation of one
entity in the space's list. -/
def update_entity : List Entity → ℕ → (Entity → Entity) → List Entity
  | [], _, _ => []
  | e :: rest, 0, f => f e :: rest
  | e :: rest, n + 1, f => e :: update_entity rest n f

/-- Embeds `Space.get_collided_concretes`, over an index-tagged concrete list. -/
def get_collided_concretes (concretes : List (ℕ × Concrete)) (e : Entity) :
    List (ℕ × Concrete) :=
  concretes.filter fun ic => e.is_collided_with_conc ic.2

/-- One step of the maximum-overlap scan of `Space.get_max_collision_rect_x`:
keep the incumbent unless the candidate's X overlap is strictly larger
(first seen wins ties). -/
def max_rect_step_x (e : Entity) (acc : (ℕ × Concrete) × (ℚ × ℚ))
    (ic : ℕ × Concrete) : (ℕ × Concrete) × (ℚ × ℚ) :=
  let rect := get_collision_rect e.get_pos e.hitbox ic.2.get_pos ic.2.hitbox
  if rect.1 > acc.2.1 then (ic, rect) else acc

/-- Embeds `Space.get_max_collision_rect_x`: seeded with the first collided
concrete, scanning the whole list. -/
def get_max_collision_rect_x (e : Entity) (first : ℕ × Concrete)
    (l : List (ℕ × Concrete)) : (ℕ × Concrete) × (ℚ × ℚ) :=
  l.foldl (max_rect_step_x e)
    (first, get_collision_rect e.get_pos e.hitbox first.2.get_pos first.2.hitbox)

/-- One step of the maximum-overlap scan of `Space.get_max_collision_rect_y`. -/
def max_rect_step_y (e : Entity) (acc : (ℕ × Concrete) × (ℚ × ℚ))
    (ic : ℕ × Concrete) : (ℕ × Concrete) × (ℚ × ℚ) :=
  let rect := get_collision_rect e.get_pos e.hitbox ic.2.get_pos ic.2.hitbox
  if rect.2 > acc.2.2 then (ic, rect) else acc

/-- Embeds `Space.get_max_collision_rect_y`. -/
def get_max_collision_rect_y (e : Entity) (first : ℕ × Concrete)
    (l : List (ℕ × Concrete)) : (ℕ × Concrete) × (ℚ × ℚ) :=
  l.foldl (max_rect_step_y e)
    (first, get_collision_rect e.get_pos e.hitbox first.2.get_pos first.2.hitbox)

/-- The body of `Space.move_all_x` for one entity (the concretes passed in
have already been moved): advance by `vel_x`; skip resolution entirely when
`pre_collided`; otherwise resolve against the concrete of maximal X overlap,
set a hit flag from the sign of the velocity difference, record an event,
push back by `copysign` of the X overlap and absorb the concrete's
X velocity. -/
def move_entity_x (concretes : List (ℕ × Concrete)) (i : ℕ) (e0 : Entity) :
    Entity × List CollisionEvent :=
  let e1 := { e0 with x := e0.x + e0.vel_x }
  if e1.pre_collided then (e1, [])
  else
    match get_collided_concretes concretes e1 with
    | [] => (e1, [])
    | first :: rest =>
      let sig := get_max_collision_rect_x e1 first (first :: rest)
      let velocity_difference := e1.vel_x - sig.1.2.vel_x
      let e2 := if velocity_difference > 0 then { e1 with hit_left := true }
        else { e1 with hit_right := true }
      let ev : CollisionEvent :=
        ⟨Party.ent i, Party.conc sig.1.1, sig.2, Axis.X⟩
      let e3 := { e2 with x := e2.x - copysign sig.2.1 velocity_difference,
                          vel_x := sig.1.2.vel_x }
      (e3, [ev])

/-- The body of `Space.move_all_y` for one entity; structurally identical to
the X pass with `hit_up`/`hit_down` in place of `hit_left`/`hit_right`. -/
def move_entity_y (concretes : List (ℕ × Concrete)) (i : ℕ) (e0 : Entity) :
    Entity × List CollisionEvent :=
  let e1 := { e0 with y := e0.y + e0.vel_y }
  if e1.pre_collided then (e1, [])
  else
    match get_collided_concretes concretes e1 with
    | [] => (e1, [])
    | first :: rest =>
      let sig := get_max_collision_rect_y e1 first (first :: rest)
      let velocity_difference := e1.vel_y - sig.1.2.vel_y
      let e2 := if velocity_difference > 0 then { e1 with hit_up := true }
        else { e1 with hit_down := true }
      let ev : CollisionEvent :=
        ⟨Party.ent i, Party.conc sig.1.1, sig.2, Axis.Y⟩
      let e3 := { e2 with y := e2.y - copysign sig.2.2 velocity_difference,
                          vel_y := sig.1.2.vel_y }
      (e3, [ev])

/-- Embeds `Space.move_all_x`: move every concrete by its X velocity first, then
process every entity in order, appending the produced collision events. -/
def Space.move_all_x (s : Space) : Space :=
  let moved := s.concretes.map fun c => { c with x := c.x + c.vel_x }
  let res := (enumerate s.entities).foldl
    (fun (acc : List Entity × List CollisionEvent) ie =>
      let r := move_entity_x (enumerate moved) ie.1 ie.2
      (acc.1 ++ [r.1], acc.2 ++ r.2))
    ([], [])
  { s with concretes := moved, entities := res.1, events := s.events ++ res.2 }

/-- Embeds `Space.move_all_y`. -/
def Space.move_all_y (s : Space) : Space :=
  let moved := s.concretes.map fun c => { c with y := c.y + c.vel_y }
  let res := (enumerate s.entities).foldl
    (fun (acc : List Entity × List CollisionEvent) ie =>
      let r := move_entity_y (enumerate moved) ie.1 ie.2
      (acc.1 ++ [r.1], acc.2 ++ r.2))
    ([], [])
  { s with concretes := moved, entities := res.1, events := s.events ++ res.2 }

/-- Embeds `Space.already_compared`: whether an event already records exactly this
pair of entities. -/
def already_compared (events : List CollisionEvent) (i j : ℕ) : Bool :=
  events.any fun ev =>
    ((ev.party_one = Party.ent i || ev.party_two = Party.ent i) &&
     (ev.party_one = Party.ent j || ev.party_two = Party.ent j))

/-- The collision test plus event construction for one entity pair in
`Space.search_for_entity_collisions`: the event's axis is `Y` unless the Y
overlap is strictly larger than the X overlap. -/
def entity_pair_event (entities : List Entity) (i j : ℕ) :
    Option CollisionEvent :=
  match entities[i]?, entities[j]? with
  | some e1, some e2 =>
    if e1.is_collided_with e2 then
      let collision_rect :=
        get_collision_rect e1.get_pos e1.hitbox e2.get_pos e2.hitbox
      let ax := if collision_rect.2 > collision_rect.1 then Axis.X else Axis.Y
      some ⟨Party.ent i, Party.ent j, collision_rect, ax⟩
    else none
  | _, _ => none

/-- Embeds `Space.search_for_entity_collisions`: the nested index loops
(`i` over all entities, `j` from `i` up), skipping identical objects and
already-compared pairs against the evolving event list. -/
def Space.search_for_entity_collisions (s : Space) : Space :=
  let n := s.entities.length
  let evs := (range_from 0 n).foldl
    (fun evs1 i =>
      (range_from i (n - i)).foldl
        (fun evs2 j =>
          if i ≠ j ∧ already_compared evs2 i j = false then
            match entity_pair_event s.entities i j with
            | some ev => evs2 ++ [ev]
            | none => evs2
          else evs2)
        evs1)
    s.events
  { s with events := evs }

/-- Embeds `Space._resolve_entity_entity` for one event: when both parties are
entities, apply equal and opposite forces of magnitude
`overlap * collision_coefficient` on the axis of smaller overlap, the party
of smaller coordinate getting the negative direction. -/
def resolve_entity_entity (coeff : ℚ) (entities : List Entity)
    (ev : CollisionEvent) : List Entity :=
  match ev.party_one, ev.party_two with
  | Party.ent i, Party.ent j =>
    match entities[i]?, entities[j]? with
    | some e1, some e2 =>
      let rect := ev.collision_rect
      if rect.1 < rect.2 then
        if e1.x < e2.x then
          update_entity
            (update_entity entities i fun e => e.apply_force (-1 * rect.1 * coeff) 0)
            j fun e => e.apply_force (rect.1 * coeff) 0
        else
          update_entity
            (update_entity entities j fun e => e.apply_force (-1 * rect.1 * coeff) 0)
            i fun e => e.apply_force (rect.1 * coeff) 0
      else
        if e1.y < e2.y then
          update_entity
            (update_entity entities i fun e => e.apply_force 0 (-1 * rect.2 * coeff))
            j fun e => e.apply_force 0 (rect.2 * coeff)
        else
          update_entity
            (update_entity entities j fun e => e.apply_force 0 (-1 * rect.2 * coeff))
            i fun e => e.apply_force 0 (rect.2 * coeff)
    | _, _ => entities
  | _, _ => entities

/-- Embeds `Space.resolve_entity_collisions`. -/
def Space.resolve_entity_collisions (s : Space) : Space :=
  { s with entities :=
      s.events.foldl (resolve_entity_entity s.collision_coefficient) s.entities }

/-- The body of `Space.apply_friction` for one event: a relative-velocity
proportional force on the axis perpendicular to the event's axis.  Both the
entity/concrete and the entity/entity branch scale by the acted-on entity's
own mass and by the product of the two parties' friction coefficients. -/
def friction_event (entities : List Entity) (concretes : List Concrete)
    (ev : CollisionEvent) : List Entity :=
  if ev.has_concrete then
    match ev.get_entity, ev.get_concrete with
    | some (Party.ent i), some (Party.conc k) =>
      match entities[i]?, concretes[k]? with
      | some e, some c =>
        let friction := c.friction * e.friction
        match ev.axis with
        | Axis.X =>
          update_entity entities i fun e0 =>
            e0.apply_force 0 (-(e.mass * friction * (e.vel_y - c.vel_y)))
        | Axis.Y =>
          update_entity entities i fun e0 =>
            e0.apply_force (-(e.mass * friction * (e.vel_x - c.vel_x))) 0
      | _, _ => entities
    | _, _ => entities
  else
    match ev.party_one, ev.party_two with
    | Party.ent i, Party.ent j =>
      match entities[i]?, entities[j]? with
      | some e1, some e2 =>
        let friction := e1.friction * e2.friction
        match ev.axis with
        | Axis.X =>
          let rel_velocity_y := e1.vel_y - e2.vel_y
          update_entity
            (update_entity entities i fun e0 =>
              e0.apply_force 0 (-(e1.mass * friction * rel_velocity_y)))
            j fun e0 => e0.apply_force 0 (e2.mass * friction * rel_velocity_y)
        | Axis.Y =>
          let rel_velocity_x := e1.vel_x - e2.vel_x
          update_entity
            (update_entity entities i fun e0 =>
              e0.apply_force (-(e1.mass * friction * rel_velocity_x)) 0)
            j fun e0 => e0.apply_force (e2.mass * friction * rel_velocity_x) 0
      | _, _ => entities
    | _, _ => entities

/-- Embeds `Space.apply_friction`. -/
def Space.apply_friction (s : Space) : Space :=
  { s with entities :=
      s.events.foldl (fun ents ev => friction_event ents s.concretes ev) s.entities }

/-- The body of `Space.apply_bouncy` for one event: entity/entity events
only, an equal and opposite force along the event's own axis proportional to
the relative velocity and to one minus the product of the bouncy
coefficients. -/
def bouncy_event (entities : List Entity) (ev : CollisionEvent) :
    List Entity :=
  if ev.has_concrete then entities
  else
    match ev.party_one, ev.party_two with
    | Party.ent i, Party.ent j =>
      match entities[i]?, entities[j]? with
      | some e1, some e2 =>
        let resist_bouncy := 1 - e1.bouncy * e2.bouncy
        match ev.axis with
        | Axis.Y =>
          let rel_velocity_y := e1.vel_y - e2.vel_y
          update_entity
            (update_entity entities i fun e0 =>
              e0.apply_force 0 (-(resist_bouncy * rel_velocity_y)))
            j fun e0 => e0.apply_force 0 (resist_bouncy * rel_velocity_y)
        | Axis.X =>
          let rel_velocity_x := e1.vel_x - e2.vel_x
          update_entity
            (update_entity entities i fun e0 =>
              e0.apply_force (-(resist_bouncy * rel_velocity_x)) 0)
            j fun e0 => e0.apply_force (resist_bouncy * rel_velocity_x) 0
      | _, _ => entities
    | _, _ => entities

/-- Embeds `Space.apply_bouncy`. -/
def Space.apply_bouncy (s : Space) : Space :=
  { s with entities := s.events.foldl bouncy_event s.entities }

/-- Embeds `Space.custom_updates`: `custom_script` is `pass` for both `Entity` and
`Concrete`, so this phase is the identity. -/
def Space.custom_updates (s : Space) : Space := s

/-- Embeds `Space.update`: the per-tick pipeline in the source's order. -/
def Space.update (s : Space) : Space :=
  ((((((({ s with events := [] }).resolve_forces).mark_precollisions).move_all_x).move_all_y).search_for_entity_collisions).resolve_entity_collisions).apply_friction.apply_bouncy.custom_updates

/-- The drag stage of `Space.resolve_forces` on one axis, as a standalone
function of the space's air resistance, the entity's drag coefficient and
mass, and the incoming velocity. -/
def drag_step (air_resistance drag_coefficient mass v : ℚ) : ℚ :=
  let change := drag_coefficient * air_resistance * v / mass
  if fabs v < fabs change then 0 else v - change

/-- The axis-speed-limit clamp of `Space.resolve_forces` on one axis. -/
def clamp_speed (limit v : ℚ) : ℚ :=
  if v > limit then limit else if v < -limit then -limit else v

/-- Modelled from the spec wording of claim C1 (this is the claim's version,
not the source's): the Y velocity obtained by adding the accumulated force,
then applying the drag term, then subtracting gravity, in that order. -/
def claim_vel_y_force_drag_gravity (s : Space) (e : Entity) : ℚ :=
  drag_step s.air_resistance e.drag_coefficient e.mass
    (e.vel_y + e.force_y / e.mass) - s.gravity

/-- Modelled from the spec wording of claim C2 (this is the claim's version,
not the source's): on each axis the minimum combined extent minus twice the
absolute distance between the two rectangles' centers, plus the fixed 0.01
epsilon on both components. -/
def claim_overlap_rect (pos1 hitbox1 pos2 hitbox2 : ℚ × ℚ) : ℚ × ℚ :=
  ((hitbox1.1 + hitbox2.1) -
     2 * fabs ((pos1.1 + hitbox1.1 / 2) - (pos2.1 + hitbox2.1 / 2)) + 1/100,
   (hitbox1.2 + hitbox2.2) -
     2 * fabs ((pos1.2 + hitbox1.2 / 2) - (pos2.2 + hitbox2.2 / 2)) + 1/100)

/-- Modelled from the spec wording of claim C3 (this is the claim's version,
not the source's): the entity/concrete friction branch scaled by the product
of the two friction coefficients alone, with no mass factor. -/
def claim_friction_event_ec (entities : List Entity)
    (concretes : List Concrete) (ev : CollisionEvent) : List Entity :=
  if ev.has_concrete then
    match ev.get_entity, ev.get_concrete with
    | some (Party.ent i), some (Party.conc k) =>
      match entities[i]?, concretes[k]? with
      | some e, some c =>
        let friction := c.friction * e.friction
        match ev.axis with
        | Axis.X =>
          update_entity entities i fun e0 =>
            e0.apply_force 0 (-(friction * (e.vel_y - c.vel_y)))
        | Axis.Y =>
          update_entity entities i fun e0 =>
            e0.apply_force (-(friction * (e.vel_x - c.vel_x))) 0
      | _, _ => entities
    | _, _ => entities
  else entities

/-- The scenario of claim C4: one entity at `(0, 10)` with hitbox
`(10, 10)` and mass 1, one concrete at `(0, 0)` with hitbox `(100, 10)`,
default constants. -/
def scenario_space : Space :=
  { mkSpace with
    entities := [mkEntity (0, 10) (10, 10) 1],
    concretes := [mkConcrete (0, 0) (100, 10)] }

/-- Witness input: the default entity used for the C1 counterexample. -/
def c1_entity : Entity := mkEntity (0, 0) (10, 10) 1

/-- Witness input: an entity of mass 2 moving up at unit speed, used for the
C3 friction counterexample and witness. -/
def c3_entity : Entity := { mkEntity (0, 0) (10, 10) 2 with vel_y := 1 }

/-- Witness input: a default concrete, used for the C3 counterexample. -/
def c3_concrete : Concrete := mkConcrete (0, 0) (10, 10)

/-- Witness input: an X-axis entity/concrete collision event between the
first entity and the first concrete. -/
def c3_event : CollisionEvent := ⟨Party.ent 0, Party.conc 0, (1, 1), Axis.X⟩

/-- Witness input: a space whose only concrete overlaps `c5_entity`. -/
def c5_space : Space := { mkSpace with concretes := [mkConcrete (5, 0) (10, 10)] }

/-- Witness input: a default entity at the origin. -/
def c5_entity : Entity := mkEntity (0, 0) (10, 10) 1

/-- Witness input: a moving entity already marked `pre_collided`. -/
def c5_pre : Entity :=
  { mkEntity (0, 0) (10, 10) 1 with pre_collided := true, vel_x := 2, vel_y := 3 }

/-- Witness input: the left entity of the C6 witness pair. -/
def c6_e1 : Entity := mkEntity (0, 0) (10, 10) 1

/-- Witness input: the right entity of the C6 witness pair, heavier to show
the push is mass independent. -/
def c6_e2 : Entity := mkEntity (5, 0) (10, 10) 7

/-- Witness input: an entity/entity event whose X overlap is the smaller. -/
def c6_event : CollisionEvent := ⟨Party.ent 0, Party.ent 1, (1, 2), Axis.X⟩

/-- Witness input: a space with zero gravity for the drag-only claim C7. -/
def c7_space : Space := { mkSpace with gravity := 0 }

/-- Witness input: an entity with nonzero velocities and no accumulated
force. -/
def c7_entity : Entity :=
  { mkEntity (0, 0) (10, 10) 1 with vel_x := 4, vel_y := -2 }

/-- Witness input: the concrete the C10 witness entity overlaps. -/
def c10_concrete : Concrete := mkConcrete (5, 0) (10, 10)

/-- Witness input: a stationary entity overlapping `c10_concrete` with zero
relative velocity. -/
def c10_entity : Entity := mkEntity (0, 0) (10, 10) 1

/-- The model of `math.fabs` agrees with the absolute value on `ℚ`. -/
theorem fabs_eq_abs (q : ℚ) : fabs q = |q| := by
  by_cases h : q < 0
  · rw [fabs, if_pos h, abs_of_neg h]
  · rw [fabs, if_neg h, abs_of_nonneg (le_of_not_lt h)]

/-- The X velocity produced by `Space.resolve_forces` for one entity is the
force integral fed to the drag stage and the speed clamp. -/
theorem resolve_forces_entity_vel_x (s : Space) (e : Entity) :
    (resolve_forces_entity s e).vel_x =
      clamp_speed s.axis_speed_limit
        (drag_step s.air_resistance e.drag_coefficient e.mass
          (e.vel_x + e.force_x / e.mass)) := rfl

/-- The Y velocity produced by `Space.resolve_forces` for one entity: the
accumulated force is added, then gravity is subtracted, and the drag stage
runs on that already-gravity-adjusted velocity, followed by the clamp. -/
theorem resolve_forces_entity_vel_y (s : Space) (e : Entity) :
    (resolve_forces_entity s e).vel_y =
      clamp_speed s.axis_speed_limit
        (drag_step s.air_resistance e.drag_coefficient e.mass
          (e.vel_y + e.force_y / e.mass - s.gravity)) := rfl

/-- Claim C8: the overlap test is symmetric: for any two axis-aligned boxes
the result of `do_hitboxes_collide` does not depend on the argument order,
despite the syntactically asymmetric-looking Y comparison. -/
theorem c8_overlap_symmetric (pos1 hitbox1 pos2 hitbox2 : ℚ × ℚ) :
    do_hitboxes_collide pos1 hitbox1 pos2 hitbox2 =
      do_hitboxes_collide pos2 hitbox2 pos1 hitbox1 := by
  rw [Bool.eq_iff_iff]
  simp only [do_hitboxes_collide, Bool.and_eq_true, decide_eq_true_eq]
  constructor
  · rintro ⟨⟨⟨h1, h2⟩, h3⟩, h4⟩
    exact ⟨⟨⟨by linarith, by linarith⟩, by linarith⟩, by linarith⟩
  · rintro ⟨⟨⟨h1, h2⟩, h3⟩, h4⟩
    exact ⟨⟨⟨by linarith, by linarith⟩, by linarith⟩, by linarith⟩

/-- Claim C9: `get_concrete` fails (here: returns `none`, modelling the
`RuntimeError`) exactly when neither party is a `Concrete`, and otherwise
returns a `Concrete` party of the event; dually for `get_entity`.  Both
accessors are plain functions of the event, so the event is not mutated. -/
theorem c9_party_accessors (ev : CollisionEvent) :
    (ev.get_concrete = none ↔
      ev.party_one.isConc = false ∧ ev.party_two.isConc = false) ∧
    (∀ p, ev.get_concrete = some p →
      p.isConc = true ∧ (p = ev.party_one ∨ p = ev.party_two)) ∧
    (ev.get_entity = none ↔
      ev.party_one.isEnt = false ∧ ev.party_two.isEnt = false) ∧
    (∀ p, ev.get_entity = some p →
      p.isEnt = true ∧ (p = ev.party_one ∨ p = ev.party_two)) := by
  obtain ⟨p1, p2, rect, ax⟩ := ev
  cases p1 <;> cases p2 <;>
    simp [CollisionEvent.get_concrete, CollisionEvent.get_entity,
      Party.isConc, Party.isEnt] <;>
    intro p hp <;> simp [← hp, Party.isConc, Party.isEnt]

/-- Witness for claim C9: on an event whose second party is a concrete,
`get_concrete` returns that party. -/
theorem c9_witness :
    (Party.conc 0).isConc = true ∧
      (Party.conc 0 =
          (⟨Party.ent 1, Party.conc 0, (1, 1), Axis.X⟩ : CollisionEvent).party_one ∨
        Party.conc 0 =
          (⟨Party.ent 1, Party.conc 0, (1, 1), Axis.X⟩ : CollisionEvent).party_two) :=
  (c9_party_accessors ⟨Party.ent 1, Party.conc 0, (1, 1), Axis.X⟩).2.1
    (Party.conc 0) rfl

/-- Counterexample to claim C2: at boxes of width 10 with centers 5 apart,
the source returns half of what the claim's formula gives on each axis. -/
theorem c2_counterexample :
    get_collision_rect (0, 0) (10, 10) (5, 0) (10, 10) = (501/100, 1001/100) ∧
    claim_overlap_rect (0, 0) (10, 10) (5, 0) (10, 10) = (1001/100, 2001/100) ∧
    get_collision_rect (0, 0) (10, 10) (5, 0) (10, 10) ≠
      claim_overlap_rect (0, 0) (10, 10) (5, 0) (10, 10) := by
  refine ⟨?_, ?_, ?_⟩ <;>
    norm_num [get_collision_rect, claim_overlap_rect, fabs, Prod.ext_iff]

/-- Claim C2 amended: on each axis `get_collision_rect` returns HALF of the
minimum combined extent minus twice the absolute center distance
(equivalently, half the combined extent minus the center distance), plus the
unconditional 0.01 epsilon on both components. -/
theorem c2_overlap_rect_amended (pos1 hitbox1 pos2 hitbox2 : ℚ × ℚ) :
    get_collision_rect pos1 hitbox1 pos2 hitbox2 =
      (((hitbox1.1 + hitbox2.1) -
          2 * fabs ((pos1.1 + hitbox1.1 / 2) - (pos2.1 + hitbox2.1 / 2))) / 2
          + 1/100,
       ((hitbox1.2 + hitbox2.2) -
          2 * fabs ((pos1.2 + hitbox1.2 / 2) - (pos2.2 + hitbox2.2 / 2))) / 2
          + 1/100) := by
  have hx : (1/2 * hitbox1.1 + pos1.1) - (1/2 * hitbox2.1 + pos2.1) =
      (pos1.1 + hitbox1.1 / 2) - (pos2.1 + hitbox2.1 / 2) := by ring
  have hy : (1/2 * hitbox1.2 + pos1.2) - (1/2 * hitbox2.2 + pos2.2) =
      (pos1.2 + hitbox1.2 / 2) - (pos2.2 + hitbox2.2 / 2) := by ring
  simp only [get_collision_rect, hx, hy, Prod.mk.injEq]
  constructor <;> ring

/-- Counterexample to claim C1: for a fresh entity of mass 1 under the
default constants, the source yields `vel_y = -51/200` (gravity is applied
before drag, so drag partially cancels it), while the claim's
force-drag-gravity order would yield `-3/10`. -/
theorem c1_counterexample :
    (resolve_forces_entity mkSpace c1_entity).vel_y = -51/200 ∧
    claim_vel_y_force_drag_gravity mkSpace c1_entity = -3/10 ∧
    (resolve_forces_entity mkSpace c1_entity).vel_y ≠
      claim_vel_y_force_drag_gravity mkSpace c1_entity := by
  refine ⟨?_, ?_, ?_⟩ <;>
    norm_num [resolve_forces_entity, claim_vel_y_force_drag_gravity,
      drag_step, clamp_speed, fabs, mkSpace, mkEntity, c1_entity]

/-- Claim C1 amended: in per-entity force resolution the Y axis is processed
in the literal order force, then GRAVITY, then drag (then the speed clamp):
drag acts on the already-gravity-adjusted velocity, so gravity IS subject to
drag in the same pass. -/
theorem c1_amended_force_gravity_drag (s : Space) (e : Entity) :
    (resolve_forces_entity s e).vel_y =
      clamp_speed s.axis_speed_limit
        (drag_step s.air_resistance e.drag_coefficient e.mass
          (e.vel_y + e.force_y / e.mass - s.gravity)) :=
  resolve_forces_entity_vel_y s e

/-- Counterexample to claim C3: for an entity of mass 2 the source's
entity/concrete friction force is `-1/10` (mass-scaled), not the `-1/20`
the claim's mass-free scaling would give. -/
theorem c3_counterexample :
    (friction_event [c3_entity] [c3_concrete] c3_event).map
        (fun e => e.force_y) = [-1/10] ∧
    (claim_friction_event_ec [c3_entity] [c3_concrete] c3_event).map
        (fun e => e.force_y) = [-1/20] ∧
    friction_event [c3_entity] [c3_concrete] c3_event ≠
      claim_friction_event_ec [c3_entity] [c3_concrete] c3_event := by
  refine ⟨?_, ?_, ?_⟩ <;>
    norm_num [friction_event, claim_friction_event_ec, c3_entity, c3_concrete,
      c3_event, mkEntity, mkConcrete, CollisionEvent.has_concrete,
      CollisionEvent.get_entity, CollisionEvent.get_concrete, Party.isConc,
      Party.isEnt, update_entity, Entity.apply_force, List.get?,
      Entity.mk.injEq, List.cons.injEq]

/-- Claim C3 amended: in the friction pass a velocity-proportional force is
applied on the axis perpendicular to the event's axis, scaled by the product
of the two parties' friction coefficients AND, in the entity/concrete case
just as in the entity/entity case, by the acted-on entity's own mass. -/
theorem c3_friction_amended :
    (∀ (entities : List Entity) (concretes : List Concrete) (rect : ℚ × ℚ)
        (i k : ℕ) (e : Entity) (c : Concrete),
      entities[i]? = some e → concretes[k]? = some c →
      friction_event entities concretes
          ⟨Party.ent i, Party.conc k, rect, Axis.X⟩ =
        update_entity entities i (fun e0 => e0.apply_force 0
          (-(e.mass * (c.friction * e.friction) * (e.vel_y - c.vel_y)))) ∧
      friction_event entities concretes
          ⟨Party.ent i, Party.conc k, rect, Axis.Y⟩ =
        update_entity entities i (fun e0 => e0.apply_force
          (-(e.mass * (c.friction * e.friction) * (e.vel_x - c.vel_x))) 0)) ∧
    (∀ (entities : List Entity) (concretes : List Concrete) (rect : ℚ × ℚ)
        (i j : ℕ) (e1 e2 : Entity),
      entities[i]? = some e1 → entities[j]? = some e2 →
      friction_event entities concretes
          ⟨Party.ent i, Party.ent j, rect, Axis.X⟩ =
        update_entity
          (update_entity entities i (fun e0 => e0.apply_force 0
            (-(e1.mass * (e1.friction * e2.friction) * (e1.vel_y - e2.vel_y)))))
          j (fun e0 => e0.apply_force 0
            (e2.mass * (e1.friction * e2.friction) * (e1.vel_y - e2.vel_y))) ∧
      friction_event entities concretes
          ⟨Party.ent i, Party.ent j, rect, Axis.Y⟩ =
        update_entity
          (update_entity entities i (fun e0 => e0.apply_force
            (-(e1.mass * (e1.friction * e2.friction) * (e1.vel_x - e2.vel_x))) 0))
          j (fun e0 => e0.apply_force
            (e2.mass * (e1.friction * e2.friction) * (e1.vel_x - e2.vel_x)) 0)) := by
  constructor
  · intro entities concretes rect i k e c he hc
    constructor <;>
      simp [friction_event, CollisionEvent.has_concrete,
        CollisionEvent.get_entity, CollisionEvent.get_concrete,
        Party.isConc, Party.isEnt, he, hc]
  · intro entities concretes rect i j e1 e2 h1 h2
    constructor <;>
      simp [friction_event, CollisionEvent.has_concrete,
        CollisionEvent.get_entity, CollisionEvent.get_concrete,
        Party.isConc, Party.isEnt, h1, h2]

/-- Witness for the amended claim C3: the mass-2 entity colliding with a
default concrete on the X axis receives the mass-scaled Y friction force. -/
theorem c3_witness :
    friction_event [c3_entity] [c3_concrete] c3_event =
      update_entity [c3_entity] 0 (fun e0 => e0.apply_force 0
        (-(c3_entity.mass * (c3_concrete.friction * c3_entity.friction) *
            (c3_entity.vel_y - c3_concrete.vel_y)))) :=
  (c3_friction_amended.1 [c3_entity] [c3_concrete] (1, 1) 0 0 c3_entity
    c3_concrete rfl rfl).1

/-- Claim C5: `pre_collided` is set exactly to the result of the
entity-against-every-concrete overlap test taken before movement; when it is
set the entity's Y position is nudged down by exactly one unit (X untouched),
otherwise the position is untouched; and an entity entering a move pass with
`pre_collided` set is only advanced by its velocity on that axis: no hit
flag, no event, no push-back and no velocity absorption happen on either the
X or the Y pass. -/
theorem c5_precollision_suppression (s : Space) (e : Entity)
    (concretes : List (ℕ × Concrete)) (i : ℕ) (e' : Entity) :
    ((mark_precollisions_entity s e).pre_collided =
      check_for_concrete_colliding s e) ∧
    (check_for_concrete_colliding s e = true ↔
      ∃ c ∈ s.concretes, e.is_collided_with_conc c = true) ∧
    (check_for_concrete_colliding s e = true →
      (mark_precollisions_entity s e).y = e.y - 1 ∧
      (mark_precollisions_entity s e).x = e.x) ∧
    (check_for_concrete_colliding s e = false →
      (mark_precollisions_entity s e).y = e.y ∧
      (mark_precollisions_entity s e).x = e.x) ∧
    (e'.pre_collided = true →
      move_entity_x concretes i e' = ({ e' with x := e'.x + e'.vel_x }, []) ∧
      move_entity_y concretes i e' = ({ e' with y := e'.y + e'.vel_y }, [])) := by
  refine ⟨?_, ?_, ?_, ?_, ?_⟩
  · by_cases h : check_for_concrete_colliding s e <;>
      simp [mark_precollisions_entity, h]
  · simp [check_for_concrete_colliding, List.any_eq_true]
  · intro h; simp [mark_precollisions_entity, h]
  · intro h; simp [mark_precollisions_entity, h]
  · intro h
    constructor <;> simp [move_entity_x, move_entity_y, h]

/-- Witness for claim C5: an entity overlapping the sole concrete of
`c5_space` gets nudged down one unit, and a pre-collided moving entity
passes through the X move pass with only its position advanced and no
event. -/
theorem c5_witness :
    (mark_precollisions_entity c5_space c5_entity).y = c5_entity.y - 1 ∧
    move_entity_x [] 0 c5_pre = ({ c5_pre with x := c5_pre.x + c5_pre.vel_x }, []) := by
  have hcheck : check_for_concrete_colliding c5_space c5_entity = true := by
    norm_num [check_for_concrete_colliding, c5_space, c5_entity, mkSpace,
      mkEntity, mkConcrete, Entity.is_collided_with_conc, do_hitboxes_collide,
      Entity.get_pos, Concrete.get_pos]
  have hpre : c5_pre.pre_collided = true := rfl
  exact ⟨((c5_precollision_suppression c5_space c5_entity [] 0 c5_pre).2.2.1
      hcheck).1,
    ((c5_precollision_suppression c5_space c5_entity [] 0 c5_pre).2.2.2.2
      hpre).1⟩

/-- Sign behaviour of the drag stage: with nonnegative coefficients and
positive mass it never flips the sign of the velocity, and it returns
exactly zero whenever the drag term's magnitude reaches the velocity's. -/
theorem drag_step_sign (ar dc m v : ℚ) (hm : 0 < m) (hd : 0 ≤ dc)
    (ha : 0 ≤ ar) :
    (0 < v → 0 ≤ drag_step ar dc m v) ∧
    (v < 0 → drag_step ar dc m v ≤ 0) ∧
    (fabs v ≤ fabs (dc * ar * v / m) → drag_step ar dc m v = 0) := by
  have hk : 0 ≤ dc * ar / m := div_nonneg (mul_nonneg hd ha) hm.le
  have hchange : dc * ar * v / m = dc * ar / m * v := by ring
  simp only [drag_step, hchange, fabs_eq_abs, abs_mul,
    abs_of_nonneg hk]
  split_ifs with h
  · exact ⟨fun _ => le_refl 0, fun _ => le_refl 0, fun _ => rfl⟩
  · push_neg at h
    refine ⟨fun hv => ?_, fun hv => ?_, fun hle => ?_⟩
    · have : |v| = v := abs_of_pos hv
      rw [this] at h
      nlinarith
    · have : |v| = -v := abs_of_neg hv
      rw [this] at h
      nlinarith
    · by_cases hv : v = 0
      · rw [hv]; ring
      · have heq : dc * ar / m * |v| = |v| := le_antisymm h hle
        have habs : |v| ≠ 0 := abs_ne_zero.mpr hv
        have hone : dc * ar / m = 1 :=
          mul_right_cancel₀ habs (by rw [heq, one_mul])
        rw [hone]; ring

/-- The speed clamp with a nonnegative limit preserves the sign of its
input. -/
theorem clamp_speed_sign (lim v : ℚ) (hl : 0 ≤ lim) :
    (0 ≤ v → 0 ≤ clamp_speed lim v) ∧
    (v ≤ 0 → clamp_speed lim v ≤ 0) ∧
    (v = 0 → clamp_speed lim v = 0) := by
  unfold clamp_speed
  refine ⟨fun h => ?_, fun h => ?_, fun h => ?_⟩ <;> split_ifs <;> linarith

/-- Claim C7: with positive mass, drag coefficient in `[0, 1]`, nonnegative
air resistance and (nonnegative speed limit), force resolution with zero
accumulated force and zero gravity never produces a velocity of opposite
sign on either axis, and yields exactly zero when the drag term's magnitude
reaches or exceeds the velocity's magnitude. -/
theorem c7_drag_non_reversal (s : Space) (e : Entity)
    (hm : 0 < e.mass) (hd0 : 0 ≤ e.drag_coefficient)
    (hd1 : e.drag_coefficient ≤ 1) (ha : 0 ≤ s.air_resistance)
    (hl : 0 ≤ s.axis_speed_limit) (hg : s.gravity = 0)
    (hfx : e.force_x = 0) (hfy : e.force_y = 0) :
    (0 < e.vel_x → 0 ≤ (resolve_forces_entity s e).vel_x) ∧
    (e.vel_x < 0 → (resolve_forces_entity s e).vel_x ≤ 0) ∧
    (0 < e.vel_y → 0 ≤ (resolve_forces_entity s e).vel_y) ∧
    (e.vel_y < 0 → (resolve_forces_entity s e).vel_y ≤ 0) ∧
    (fabs e.vel_x ≤
        fabs (e.drag_coefficient * s.air_resistance * e.vel_x / e.mass) →
      (resolve_forces_entity s e).vel_x = 0) ∧
    (fabs e.vel_y ≤
        fabs (e.drag_coefficient * s.air_resistance * e.vel_y / e.mass) →
      (resolve_forces_entity s e).vel_y = 0) := by
  have hx0 : e.vel_x + e.force_x / e.mass = e.vel_x := by
    rw [hfx, zero_div, add_zero]
  have hy0 : e.vel_y + e.force_y / e.mass - s.gravity = e.vel_y := by
    rw [hfy, hg, zero_div, add_zero, sub_zero]
  have hdx := drag_step_sign s.air_resistance e.drag_coefficient e.mass
    e.vel_x hm hd0 ha
  have hdy := drag_step_sign s.air_resistance e.drag_coefficient e.mass
    e.vel_y hm hd0 ha
  have hcx := clamp_speed_sign s.axis_speed_limit
    (drag_step s.air_resistance e.drag_coefficient e.mass e.vel_x) hl
  have hcy := clamp_speed_sign s.axis_speed_limit
    (drag_step s.air_resistance e.drag_coefficient e.mass e.vel_y) hl
  rw [resolve_forces_entity_vel_x, resolve_forces_entity_vel_y, hx0, hy0]
  exact ⟨fun hv => hcx.1 (hdx.1 hv),
    fun hv => hcx.2.1 (hdx.2.1 hv),
    fun hv => hcy.1 (hdy.1 hv),
    fun hv => hcy.2.1 (hdy.2.1 hv),
    fun hle => hcx.2.2 (hdx.2.2 hle),
    fun hle => hcy.2.2 (hdy.2.2 hle)⟩

/-- Witness for claim C7: an entity moving right and down under zero gravity
keeps nonnegative X velocity and nonpositive Y velocity after force
resolution. -/
theorem c7_witness :
    0 ≤ (resolve_forces_entity c7_space c7_entity).vel_x ∧
    (resolve_forces_entity c7_space c7_entity).vel_y ≤ 0 := by
  have h := c7_drag_non_reversal c7_space c7_entity
    (by norm_num [c7_entity, mkEntity])
    (by norm_num [c7_entity, mkEntity])
    (by norm_num [c7_entity, mkEntity])
    (by norm_num [c7_space, mkSpace])
    (by norm_num [c7_space, mkSpace])
    rfl rfl rfl
  exact ⟨h.1 (by norm_num [c7_entity, mkEntity]),
    h.2.2.2.1 (by norm_num [c7_entity, mkEntity])⟩

/-- Looking up the updated index after `update_entity` gives the image of
the old element. -/
theorem update_entity_get_eq (l : List Entity) (i : ℕ) (f : Entity → Entity) :
    (update_entity l i f)[i]? = (l[i]?).map f := by
  induction l generalizing i with
  | nil => cases i <;> simp [update_entity]
  | cons e rest ih => cases i <;> simp [update_entity, ih]

/-- Looking up any other index after `update_entity` is unchanged. -/
theorem update_entity_get_ne (l : List Entity) (i k : ℕ) (f : Entity → Entity)
    (h : k ≠ i) : (update_entity l i f)[k]? = l[k]? := by
  induction l generalizing i k with
  | nil => cases i <;> simp [update_entity]
  | cons e rest ih =>
    cases i with
    | zero =>
      cases k with
      | zero => exact absurd rfl h
      | succ k => simp [update_entity]
    | succ i =>
      cases k with
      | zero => simp [update_entity]
      | succ k =>
        simp only [update_entity, List.getElem?_cons_succ]
        exact ih i k (fun hk => h (by rw [hk]))

/-- Claim C6: for an entity/entity collision event, resolution applies equal
and opposite forces of magnitude `overlap * collision_coefficient` along the
axis of smaller overlap; the party of smaller coordinate on that axis gets
the negative direction and the other the positive one (on a coordinate tie
the second party gets the negative direction).  Neither entity's mass occurs
in the applied force. -/
theorem c6_entity_entity_push (coeff : ℚ) (entities : List Entity)
    (ev : CollisionEvent) (i j : ℕ) (e1 e2 : Entity)
    (hp1 : ev.party_one = Party.ent i) (hp2 : ev.party_two = Party.ent j)
    (hij : i ≠ j) (h1 : entities[i]? = some e1) (h2 : entities[j]? = some e2) :
    (ev.collision_rect.1 < ev.collision_rect.2 →
      (e1.x < e2.x →
        (resolve_entity_entity coeff entities ev)[i]? =
          some (e1.apply_force (-1 * ev.collision_rect.1 * coeff) 0) ∧
        (resolve_entity_entity coeff entities ev)[j]? =
          some (e2.apply_force (ev.collision_rect.1 * coeff) 0)) ∧
      (¬ e1.x < e2.x →
        (resolve_entity_entity coeff entities ev)[j]? =
          some (e2.apply_force (-1 * ev.collision_rect.1 * coeff) 0) ∧
        (resolve_entity_entity coeff entities ev)[i]? =
          some (e1.apply_force (ev.collision_rect.1 * coeff) 0))) ∧
    (¬ ev.collision_rect.1 < ev.collision_rect.2 →
      (e1.y < e2.y →
        (resolve_entity_entity coeff entities ev)[i]? =
          some (e1.apply_force 0 (-1 * ev.collision_rect.2 * coeff)) ∧
        (resolve_entity_entity coeff entities ev)[j]? =
          some (e2.apply_force 0 (ev.collision_rect.2 * coeff))) ∧
      (¬ e1.y < e2.y →
        (resolve_entity_entity coeff entities ev)[j]? =
          some (e2.apply_force 0 (-1 * ev.collision_rect.2 * coeff)) ∧
        (resolve_entity_entity coeff entities ev)[i]? =
          some (e1.apply_force 0 (ev.collision_rect.2 * coeff)))) := by
  obtain ⟨p1, p2, rect, ax⟩ := ev
  simp only at hp1 hp2
  subst hp1; subst hp2
  simp only [resolve_entity_entity, h1, h2]
  have hji : j ≠ i := fun hk => hij hk.symm
  refine ⟨fun hr => ⟨fun hx => ?_, fun hx => ?_⟩,
    fun hr => ⟨fun hy => ?_, fun hy => ?_⟩⟩
  · rw [if_pos hr, if_pos hx]
    constructor
    · rw [update_entity_get_ne _ j i _ hij, update_entity_get_eq, h1]; rfl
    · rw [update_entity_get_eq, update_entity_get_ne _ i j _ hji, h2]; rfl
  · rw [if_pos hr, if_neg hx]
    constructor
    · rw [update_entity_get_ne _ i j _ hji, update_entity_get_eq, h2]; rfl
    · rw [update_entity_get_eq, update_entity_get_ne _ j i _ hij, h1]; rfl
  · rw [if_neg hr, if_pos hy]
    constructor
    · rw [update_entity_get_ne _ j i _ hij, update_entity_get_eq, h1]; rfl
    · rw [update_entity_get_eq, update_entity_get_ne _ i j _ hji, h2]; rfl
  · rw [if_neg hr, if_neg hy]
    constructor
    · rw [update_entity_get_ne _ i j _ hji, update_entity_get_eq, h2]; rfl
    · rw [update_entity_get_eq, update_entity_get_ne _ j i _ hij, h1]; rfl

/-- Witness for claim C6: with overlap rectangle `(1, 2)` the X axis is
chosen; the left entity (mass 1) and the right entity (mass 7) receive the
same magnitude `1 * 3` of force in opposite directions. -/
theorem c6_witness :
    (resolve_entity_entity 3 [c6_e1, c6_e2] c6_event)[0]? =
      some (c6_e1.apply_force (-1 * c6_event.collision_rect.1 * 3) 0) ∧
    (resolve_entity_entity 3 [c6_e1, c6_e2] c6_event)[1]? =
      some (c6_e2.apply_force (c6_event.collision_rect.1 * 3) 0) :=
  ((c6_entity_entity_push 3 [c6_e1, c6_e2] c6_event 0 1 c6_e1 c6_e2 rfl rfl
      (by norm_num) rfl rfl).1
    (by norm_num [c6_event])).1
    (by norm_num [c6_e1, c6_e2, mkEntity])

/-- Invariant of the maximum-X-overlap scan: the accumulated rectangle is
always the collision rectangle of the accumulated concrete, and the final
selection is the seed or a member of the scanned list. -/
theorem foldl_max_x_inv (e : Entity) (l : List (ℕ × Concrete)) :
    ∀ acc : (ℕ × Concrete) × (ℚ × ℚ),
      acc.2 = get_collision_rect e.get_pos e.hitbox acc.1.2.get_pos
        acc.1.2.hitbox →
      (l.foldl (max_rect_step_x e) acc).2 =
        get_collision_rect e.get_pos e.hitbox
          (l.foldl (max_rect_step_x e) acc).1.2.get_pos
          (l.foldl (max_rect_step_x e) acc).1.2.hitbox ∧
      ((l.foldl (max_rect_step_x e) acc).1 = acc.1 ∨
        (l.foldl (max_rect_step_x e) acc).1 ∈ l) := by
  induction l with
  | nil => exact fun acc h => ⟨h, Or.inl rfl⟩
  | cons ic t ih =>
    intro acc h
    simp only [List.foldl_cons]
    by_cases hgt :
        (get_collision_rect e.get_pos e.hitbox ic.2.get_pos ic.2.hitbox).1 >
          acc.2.1
    · have hstep : max_rect_step_x e acc ic =
          (ic, get_collision_rect e.get_pos e.hitbox ic.2.get_pos
            ic.2.hitbox) := by
        simp [max_rect_step_x, hgt]
      rw [hstep]
      obtain ⟨ha, hb⟩ := ih
        (ic, get_collision_rect e.get_pos e.hitbox ic.2.get_pos ic.2.hitbox)
        rfl
      refine ⟨ha, Or.inr ?_⟩
      rcases hb with hb | hb
      · rw [hb]; exact List.mem_cons_self ic t
      · exact List.mem_cons_of_mem ic hb
    · have hstep : max_rect_step_x e acc ic = acc := by
        simp [max_rect_step_x, hgt]
      rw [hstep]
      obtain ⟨ha, hb⟩ := ih acc h
      refine ⟨ha, ?_⟩
      rcases hb with hb | hb
      · exact Or.inl hb
      · exact Or.inr (List.mem_cons_of_mem ic hb)

/-- Invariant of the maximum-Y-overlap scan. -/
theorem foldl_max_y_inv (e : Entity) (l : List (ℕ × Concrete)) :
    ∀ acc : (ℕ × Concrete) × (ℚ × ℚ),
      acc.2 = get_collision_rect e.get_pos e.hitbox acc.1.2.get_pos
        acc.1.2.hitbox →
      (l.foldl (max_rect_step_y e) acc).2 =
        get_collision_rect e.get_pos e.hitbox
          (l.foldl (max_rect_step_y e) acc).1.2.get_pos
          (l.foldl (max_rect_step_y e) acc).1.2.hitbox ∧
      ((l.foldl (max_rect_step_y e) acc).1 = acc.1 ∨
        (l.foldl (max_rect_step_y e) acc).1 ∈ l) := by
  induction l with
  | nil => exact fun acc h => ⟨h, Or.inl rfl⟩
  | cons ic t ih =>
    intro acc h
    simp only [List.foldl_cons]
    by_cases hgt :
        (get_collision_rect e.get_pos e.hitbox ic.2.get_pos ic.2.hitbox).2 >
          acc.2.2
    · have hstep : max_rect_step_y e acc ic =
          (ic, get_collision_rect e.get_pos e.hitbox ic.2.get_pos
            ic.2.hitbox) := by
        simp [max_rect_step_y, hgt]
      rw [hstep]
      obtain ⟨ha, hb⟩ := ih
        (ic, get_collision_rect e.get_pos e.hitbox ic.2.get_pos ic.2.hitbox)
        rfl
      refine ⟨ha, Or.inr ?_⟩
      rcases hb with hb | hb
      · rw [hb]; exact List.mem_cons_self ic t
      · exact List.mem_cons_of_mem ic hb
    · have hstep : max_rect_step_y e acc ic = acc := by
        simp [max_rect_step_y, hgt]
      rw [hstep]
      obtain ⟨ha, hb⟩ := ih acc h
      refine ⟨ha, ?_⟩
      rcases hb with hb | hb
      · exact Or.inl hb
      · exact Or.inr (List.mem_cons_of_mem ic hb)

/-- The selection of `get_max_collision_rect_x`: its rectangle belongs to
its concrete, and the concrete is the seed or in the scanned list. -/
theorem get_max_x_spec (e : Entity) (first : ℕ × Concrete)
    (l : List (ℕ × Concrete)) :
    (get_max_collision_rect_x e first l).2 =
      get_collision_rect e.get_pos e.hitbox
        (get_max_collision_rect_x e first l).1.2.get_pos
        (get_max_collision_rect_x e first l).1.2.hitbox ∧
    ((get_max_collision_rect_x e first l).1 = first ∨
      (get_max_collision_rect_x e first l).1 ∈ l) := by
  unfold get_max_collision_rect_x
  exact foldl_max_x_inv e l _ rfl

/-- The selection of `get_max_collision_rect_y`. -/
theorem get_max_y_spec (e : Entity) (first : ℕ × Concrete)
    (l : List (ℕ × Concrete)) :
    (get_max_collision_rect_y e first l).2 =
      get_collision_rect e.get_pos e.hitbox
        (get_max_collision_rect_y e first l).1.2.get_pos
        (get_max_collision_rect_y e first l).1.2.hitbox ∧
    ((get_max_collision_rect_y e first l).1 = first ∨
      (get_max_collision_rect_y e first l).1 ∈ l) := by
  unfold get_max_collision_rect_y
  exact foldl_max_y_inv e l _ rfl

/-- For boxes that actually collide, both components of the collision
rectangle are strictly positive (even before the epsilon). -/
theorem collide_rect_pos (pos1 hitbox1 pos2 hitbox2 : ℚ × ℚ)
    (h : do_hitboxes_collide pos1 hitbox1 pos2 hitbox2 = true) :
    0 < (get_collision_rect pos1 hitbox1 pos2 hitbox2).1 ∧
    0 < (get_collision_rect pos1 hitbox1 pos2 hitbox2).2 := by
  simp only [do_hitboxes_collide, Bool.and_eq_true, decide_eq_true_eq] at h
  obtain ⟨⟨⟨h1, h2⟩, h3⟩, h4⟩ := h
  simp only [get_collision_rect]
  constructor <;> · rw [fabs]; split_ifs <;> linarith

/-- Claim C10: in entity/concrete resolution on an axis, a collision with
zero velocity difference is still resolved: the negative-approach flag is
set (`hit_right` on X, `hit_down` on Y), the entity is pushed back in the
negative direction of the axis by the (positive) overlap amount, the axis
velocity is set to the selected concrete's, and the event is recorded. -/
theorem c10_zero_velocity_difference :
    (∀ (concretes : List (ℕ × Concrete)) (i : ℕ) (e : Entity)
        (first sig : ℕ × Concrete) (rest : List (ℕ × Concrete)) (rect : ℚ × ℚ),
      e.pre_collided = false →
      get_collided_concretes concretes { e with x := e.x + e.vel_x } =
        first :: rest →
      get_max_collision_rect_x { e with x := e.x + e.vel_x } first
        (first :: rest) = (sig, rect) →
      sig.2.vel_x = e.vel_x →
      (move_entity_x concretes i e).1.hit_right = true ∧
      0 < rect.1 ∧
      (move_entity_x concretes i e).1.x = e.x + e.vel_x - rect.1 ∧
      (move_entity_x concretes i e).1.vel_x = sig.2.vel_x ∧
      (move_entity_x concretes i e).2 =
        [⟨Party.ent i, Party.conc sig.1, rect, Axis.X⟩]) ∧
    (∀ (concretes : List (ℕ × Concrete)) (i : ℕ) (e : Entity)
        (first sig : ℕ × Concrete) (rest : List (ℕ × Concrete)) (rect : ℚ × ℚ),
      e.pre_collided = false →
      get_collided_concretes concretes { e with y := e.y + e.vel_y } =
        first :: rest →
      get_max_collision_rect_y { e with y := e.y + e.vel_y } first
        (first :: rest) = (sig, rect) →
      sig.2.vel_y = e.vel_y →
      (move_entity_y concretes i e).1.hit_down = true ∧
      0 < rect.2 ∧
      (move_entity_y concretes i e).1.y = e.y + e.vel_y - rect.2 ∧
      (move_entity_y concretes i e).1.vel_y = sig.2.vel_y ∧
      (move_entity_y concretes i e).2 =
        [⟨Party.ent i, Party.conc sig.1, rect, Axis.Y⟩]) := by
  constructor
  · intro concretes i e first sig rest rect hpre hcol hmax hvel
    have hspec := get_max_x_spec { e with x := e.x + e.vel_x } first
      (first :: rest)
    rw [hmax] at hspec
    simp only at hspec
    obtain ⟨hrect, hmem⟩ := hspec
    have hmem' : sig ∈ first :: rest := by
      rcases hmem with hm | hm
      · rw [hm]; exact List.mem_cons_self first rest
      · exact hm
    rw [← hcol] at hmem'
    have hcollide := (List.mem_filter.mp hmem').2
    have hpos : 0 < rect.1 := by
      rw [hrect]
      exact (collide_rect_pos _ _ _ _ hcollide).1
    have hfa : fabs rect.1 = rect.1 := by
      rw [fabs, if_neg (not_lt.mpr hpos.le)]
    obtain ⟨ex, ey, evx, evy, ehb, em, epre, efx, efy, efr, edc, ebo,
      ehd, ehl, ehr, ehu⟩ := e
    simp only at hpre hcol hmax hvel ⊢
    subst hpre
    simp only [move_entity_x, Bool.false_eq_true, if_false, hcol, hmax,
      hvel, sub_self, gt_iff_lt, lt_self_iff_false, copysign, if_false,
      hfa]
    refine ⟨?_, hpos, ?_, ?_, ?_⟩ <;> first | trivial | ring
  · intro concretes i e first sig rest rect hpre hcol hmax hvel
    have hspec := get_max_y_spec { e with y := e.y + e.vel_y } first
      (first :: rest)
    rw [hmax] at hspec
    simp only at hspec
    obtain ⟨hrect, hmem⟩ := hspec
    have hmem' : sig ∈ first :: rest := by
      rcases hmem with hm | hm
      · rw [hm]; exact List.mem_cons_self first rest
      · exact hm
    rw [← hcol] at hmem'
    have hcollide := (List.mem_filter.mp hmem').2
    have hpos : 0 < rect.2 := by
      rw [hrect]
      exact (collide_rect_pos _ _ _ _ hcollide).2
    have hfa : fabs rect.2 = rect.2 := by
      rw [fabs, if_neg (not_lt.mpr hpos.le)]
    obtain ⟨ex, ey, evx, evy, ehb, em, epre, efx, efy, efr, edc, ebo,
      ehd, ehl, ehr, ehu⟩ := e
    simp only at hpre hcol hmax hvel ⊢
    subst hpre
    simp only [move_entity_y, Bool.false_eq_true, if_false, hcol, hmax,
      hvel, sub_self, gt_iff_lt, lt_self_iff_false, copysign, if_false,
      hfa]
    refine ⟨?_, hpos, ?_, ?_, ?_⟩ <;> first | trivial | ring

/-- Witness for claim C10: a stationary entity overlapping a stationary
concrete (zero velocity difference) still gets `hit_right`, the negative
push-back by the overlap `501/100`, the absorbed velocity, and the event. -/
theorem c10_witness :
    (move_entity_x [(0, c10_concrete)] 0 c10_entity).1.hit_right = true ∧
    0 < (501/100 : ℚ) ∧
    (move_entity_x [(0, c10_concrete)] 0 c10_entity).1.x =
      c10_entity.x + c10_entity.vel_x - 501/100 ∧
    (move_entity_x [(0, c10_concrete)] 0 c10_entity).1.vel_x =
      c10_concrete.vel_x ∧
    (move_entity_x [(0, c10_concrete)] 0 c10_entity).2 =
      [⟨Party.ent 0, Party.conc 0, (501/100, 1001/100), Axis.X⟩] :=
  c10_zero_velocity_difference.1 [(0, c10_concrete)] 0 c10_entity
    (0, c10_concrete) (0, c10_concrete) [] (501/100, 1001/100) rfl
    (by norm_num [get_collided_concretes, List.filter, c10_entity,
      c10_concrete, mkEntity, mkConcrete, Entity.is_collided_with_conc,
      do_hitboxes_collide, Entity.get_pos, Concrete.get_pos])
    (by norm_num [get_max_collision_rect_x, max_rect_step_x,
      get_collision_rect, fabs, c10_entity, c10_concrete, mkEntity,
      mkConcrete, Entity.get_pos, Concrete.get_pos, Prod.ext_iff])
    rfl

/-- Counterexample to claim C4: after a single `update()` on the scenario
space the entity's `hit_down` flag is TRUE, a collision event HAS been
recorded, and `vel_y` is 0 (absorbed by the concrete), not merely reduced by
gravity: gravity (partially cancelled by drag) moves the entity from
`y = 10` to `y = 9.745`, which already overlaps the concrete in this tick. -/
theorem c4_counterexample :
    scenario_space.update.entities.map Entity.hit_down = [true] ∧
    scenario_space.update.events.length = 1 ∧
    scenario_space.update.entities.map Entity.vel_y = [0] := by
  norm_num [Space.update, Space.resolve_forces, resolve_forces_entity,
    Space.mark_precollisions, mark_precollisions_entity,
    check_for_concrete_colliding, Entity.is_collided_with_conc,
    Entity.is_collided_with, do_hitboxes_collide, Entity.get_pos,
    Concrete.get_pos, Space.move_all_x, Space.move_all_y, move_entity_x,
    move_entity_y, enumerate, enum_from, get_collided_concretes,
    get_max_collision_rect_x, get_max_collision_rect_y, max_rect_step_x,
    max_rect_step_y, get_collision_rect, copysign, fabs,
    Space.search_for_entity_collisions, range_from, already_compared,
    entity_pair_event, resolve_entity_entity,
    Space.resolve_entity_collisions, friction_event, Space.apply_friction,
    CollisionEvent.has_concrete, CollisionEvent.get_entity,
    CollisionEvent.get_concrete, Party.isConc, Party.isEnt, bouncy_event,
    Space.apply_bouncy, Space.custom_updates, update_entity,
    Entity.apply_force, mkSpace, mkEntity, mkConcrete, scenario_space]

/-- Claim C4 amended: one `update()` on the scenario space yields
`vel_y = -51/200` after force resolution (gravity `0.3` reduced by drag),
which moves the entity to `y = 9.745`; that DOES overlap the concrete, so a
Y-axis collision event is recorded, `hit_down` is set, the entity is pushed
back to `y = 10.01` and its velocity is absorbed to the concrete's `0`. -/
theorem c4_amended_one_tick :
    scenario_space.update.entities =
      [{ x := 0, y := 1001/100, vel_x := 0, vel_y := 0, hitbox := (10, 10),
         mass := 1, pre_collided := false, force_x := 0, force_y := 0,
         friction := 1/2, drag_coefficient := 1/2, bouncy := 0,
         hit_down := true, hit_left := false, hit_right := false,
         hit_up := false }] ∧
    scenario_space.update.events =
      [⟨Party.ent 0, Party.conc 0, (1001/100, 53/200), Axis.Y⟩] ∧
    scenario_space.update.concretes = [mkConcrete (0, 0) (100, 10)] := by
  norm_num [Space.update, Space.resolve_forces, resolve_forces_entity,
    Space.mark_precollisions, mark_precollisions_entity,
    check_for_concrete_colliding, Entity.is_collided_with_conc,
    Entity.is_collided_with, do_hitboxes_collide, Entity.get_pos,
    Concrete.get_pos, Space.move_all_x, Space.move_all_y, move_entity_x,
    move_entity_y, enumerate, enum_from, get_collided_concretes,
    get_max_collision_rect_x, get_max_collision_rect_y, max_rect_step_x,
    max_rect_step_y, get_collision_rect, copysign, fabs,
    Space.search_for_entity_collisions, range_from, already_compared,
    entity_pair_event, resolve_entity_entity,
    Space.resolve_entity_collisions, friction_event, Space.apply_friction,
    CollisionEvent.has_concrete, CollisionEvent.get_entity,
    CollisionEvent.get_concrete, Party.isConc, Party.isEnt, bouncy_event,
    Space.apply_bouncy, Space.custom_updates, update_entity,
    Entity.apply_force, mkSpace, mkEntity, mkConcrete, scenario_space]

end AABB
